import Mathlib

/-!
# SmartHomeSim: verification of the scheduling and notification core

Shallow embedding of the SmartHomeSim C++ sources:

* `SmartDevice.h` — device state, `toggle`, `setState`, observer notification;
* `Thermostat.h` — temperature-strategy holder, overridden `toggle`,
  `onSensorTriggered`;
* `Fan.h` — sensor reaction via `setState`;
* `SchedulingStrategy.h` / `OneTimeSchedule.h` / `PeriodicSchedule.h` /
  `DelayedSchedule.h` — the three trigger policies;
* `Scheduler.h` — the tick-evaluated task queue;
* `main.cpp` — the CLI `schedule` command's strategy construction.

Machine `int` is embedded as `Int`; the C++ `%` operator (truncated
remainder) is `Int.tmod`, and the division-by-zero case, undefined in C++,
is made an explicit `Except.error` branch.  Mutation is explicit state
passing: a method that can notify observers returns, next to the new state,
the list of observer ids its `notify()` pass called `update` on, in order.
-/

namespace SmartHomeSim

/-- Embedding of the C++ `%` operator on `int`: truncated remainder, with
the division-by-zero case (undefined behaviour in C++) made an explicit
error branch. -/
def cppMod (a b : Int) : Except Unit Int :=
  if b = 0 then .error () else .ok (a.tmod b)

/-! ## Trigger policies (`SchedulingStrategy` and its three subclasses)

A policy value carries the per-instance state the C++ objects hold:
`OneTimeSchedule` and `PeriodicSchedule` only their constructor argument,
`DelayedSchedule` additionally its `triggered` flag (initialised `false`).
`shouldTrigger` returns the C++ return value together with the
(possibly mutated) policy object. -/

inductive SchedulingStrategy where
  | oneTime (triggerTime : Int)
  | periodic (interval : Int)
  | delayed (startTime : Int) (triggered : Bool)
  deriving Repr, DecidableEq

namespace SchedulingStrategy

/-- `shouldTrigger(currentTime)` of the three concrete strategies:
* `OneTimeSchedule`: `return currentTime == triggerTime;`
* `PeriodicSchedule`: `return (currentTime % interval == 0);`
* `DelayedSchedule`: `if (!triggered && currentTime >= startTime) { triggered = true; return true; } return false;` -/
def shouldTrigger : SchedulingStrategy → Int → Except Unit (Bool × SchedulingStrategy)
  | oneTime T, t => .ok (decide (t = T), oneTime T)
  | periodic k, t =>
      match cppMod t k with
      | .error e => .error e
      | .ok r => .ok (decide (r = 0), periodic k)
  | delayed S trig, t =>
      if trig = false ∧ S ≤ t then .ok (true, delayed S true)
      else .ok (false, delayed S trig)

/-- `isDone()`: `true` for `OneTimeSchedule`, `false` for `PeriodicSchedule`,
the `triggered` flag for `DelayedSchedule`. -/
def isDone : SchedulingStrategy → Bool
  | oneTime _ => true
  | periodic _ => false
  | delayed _ trig => trig

end SchedulingStrategy

/-- Calls `shouldTrigger` once per element of `ts`, in order, threading the
policy object through, and collects the returned booleans. -/
def runCalls (s : SchedulingStrategy) : List Int → Except Unit (List Bool × SchedulingStrategy)
  | [] => .ok ([], s)
  | t :: ts =>
      match s.shouldTrigger t with
      | .error e => .error e
      | .ok (b, s') =>
          match runCalls s' ts with
          | .error e => .error e
          | .ok (bs, s'') => .ok (b :: bs, s'')

/-! ## `SmartDevice` -/

/-- The fields of `SmartDevice`: name, on/off state, attached observers
(kept as abstract listener ids, in `attach` order). -/
structure SmartDeviceState where
  name : String
  isOn : Bool
  observers : List Nat
  deriving Repr, DecidableEq

namespace SmartDevice

/-- `notify()`: calls `update` on every attached observer in order; the
embedding returns the list of observer ids so notified. -/
def notify (d : SmartDeviceState) : List Nat := d.observers

/-- `toggle()`: `isOn = !isOn; notify();` -/
def toggle (d : SmartDeviceState) : SmartDeviceState × List Nat :=
  let d' := { d with isOn := !d.isOn }
  (d', notify d')

/-- `setState(on)`: `if (isOn != on) { isOn = on; notify(); }` -/
def setState (d : SmartDeviceState) (desired : Bool) : SmartDeviceState × List Nat :=
  if d.isOn ≠ desired then
    let d' := { d with isOn := desired }
    (d', notify d')
  else (d, [])

end SmartDevice

/-! ## `Thermostat` -/

/-- The two concrete `TemperatureStrategy` subclasses. -/
inductive TemperatureStrategy where
  | eco
  | comfort
  deriving Repr, DecidableEq

/-- A `Thermostat`: its `SmartDevice` base plus the owned
`TemperatureStrategy*` (null when none assigned). -/
structure ThermostatState where
  dev : SmartDeviceState
  strategy : Option TemperatureStrategy
  deriving Repr, DecidableEq

namespace Thermostat

/-- `Thermostat::toggle()`:
`SmartDevice::toggle(); if (strategy && getState()) strategy->apply();`
Returns the new state, the observer notifications of the base `toggle`, and
the list of strategy actions applied (`apply()` calls, in order). -/
def toggle (t : ThermostatState) : ThermostatState × List Nat × List TemperatureStrategy :=
  let (d, ns) := SmartDevice.toggle t.dev
  let applied :=
    match t.strategy with
    | some s => if d.isOn then [s] else []
    | none => []
  ({ t with dev := d }, ns, applied)

/-- `Thermostat::onSensorTriggered(value)`: deletes the current strategy and
installs `ComfortMode` when `value > 28`, else `EcoMode`; it neither calls
`setState`/`toggle` nor `notify`, so the returned notification list is
empty. -/
def onSensorTriggered (t : ThermostatState) (value : Int) : ThermostatState × List Nat :=
  if 28 < value then ({ t with strategy := some .comfort }, [])
  else ({ t with strategy := some .eco }, [])

/-- `applyTemperatureStrategy()`: `if (strategy) strategy->apply();` -/
def applyTemperatureStrategy (t : ThermostatState) : List TemperatureStrategy :=
  match t.strategy with
  | some s => [s]
  | none => []

end Thermostat

/-! ## `Fan` -/

namespace Fan

/-- `Fan::onSensorTriggered(value)`:
`if (value > 28) setState(true); else setState(false);` -/
def onSensorTriggered (d : SmartDeviceState) (value : Int) : SmartDeviceState × List Nat :=
  if 28 < value then SmartDevice.setState d true
  else SmartDevice.setState d false

end Fan

/-! ## `Scheduler` -/

/-- `ScheduledTask`: target device name, desired state, owned strategy,
`completed` flag (initialised `false` by `addTask`). -/
structure ScheduledTask where
  deviceName : String
  turnOn : Bool
  strategy : SchedulingStrategy
  completed : Bool
  deriving Repr, DecidableEq

/-- The scheduler's task queue together with the device registry it
resolves names against. -/
structure SchedState where
  tasks : List ScheduledTask
  devices : List SmartDeviceState
  deriving Repr, DecidableEq

/-- `findDeviceByName`: linear scan, first device whose name matches. -/
def findDeviceByName (devices : List SmartDeviceState) (name : String) : Option SmartDeviceState :=
  match devices with
  | [] => none
  | d :: rest => if d.name = name then some d else findDeviceByName rest name

/-- Applies `setState on` to the first device in the list named `name`,
returning the updated list and the notifications that `setState` emitted. -/
def applySetState (devices : List SmartDeviceState) (name : String) (desired : Bool) :
    List SmartDeviceState × List Nat :=
  match devices with
  | [] => ([], [])
  | d :: rest =>
      if d.name = name then
        let (d', ns) := SmartDevice.setState d desired
        (d' :: rest, ns)
      else
        let (rest', ns) := applySetState rest name desired
        (d :: rest', ns)

/-- One iteration of the loop body of `Scheduler::update` for a single task:
```
if (!task.completed && task.strategy->shouldTrigger(currentTime)) {
    SmartDevice* device = findDeviceByName(task.deviceName);
    if (device) {
        device->setState(task.turnOn);
        task.completed = task.strategy->isDone();
    }
}
```
`&&` short-circuits, so a completed task's strategy is not consulted (and
not mutated).  Returns the updated task, the updated registry, and the list
of `setState` applications made (device name and requested state). -/
def stepTask (devices : List SmartDeviceState) (task : ScheduledTask) (currentTime : Int) :
    Except Unit (ScheduledTask × List SmartDeviceState × List (String × Bool)) :=
  if task.completed then .ok (task, devices, [])
  else
    match task.strategy.shouldTrigger currentTime with
    | .error e => .error e
    | .ok (fire, strat') =>
        if fire then
          match findDeviceByName devices task.deviceName with
          | some _ =>
              let devices' := (applySetState devices task.deviceName task.turnOn).1
              .ok ({ task with strategy := strat', completed := strat'.isDone }, devices',
                   [(task.deviceName, task.turnOn)])
          | none => .ok ({ task with strategy := strat' }, devices, [])
        else .ok ({ task with strategy := strat' }, devices, [])

/-- The loop of `Scheduler::update`: tasks in insertion order, the registry
threaded through, applications concatenated in order. -/
def updateTasks (tasks : List ScheduledTask) (devices : List SmartDeviceState) (t : Int) :
    Except Unit (List ScheduledTask × List SmartDeviceState × List (String × Bool)) :=
  match tasks with
  | [] => .ok ([], devices, [])
  | task :: rest =>
      match stepTask devices task t with
      | .error e => .error e
      | .ok (task', devices', apps) =>
          match updateTasks rest devices' t with
          | .error e => .error e
          | .ok (rest', devices'', apps') => .ok (task' :: rest', devices'', apps ++ apps')

/-- `Scheduler::update(currentTime)`. -/
def Scheduler.update (s : SchedState) (t : Int) :
    Except Unit (SchedState × List (String × Bool)) :=
  match updateTasks s.tasks s.devices t with
  | .error e => .error e
  | .ok (ts, ds, apps) => .ok (⟨ts, ds⟩, apps)

/-- The CLI `schedule` command's strategy construction (`main.cpp`): the
user-supplied `timeValue` is passed to the chosen constructor with no
validation; an unknown keyword is a reported input error (`none`). -/
def mkScheduleStrategy (strategyType : String) (timeValue currentTime : Int) :
    Option SchedulingStrategy :=
  if strategyType = "one-time" then some (.oneTime timeValue)
  else if strategyType = "periodic" then some (.periodic timeValue)
  else if strategyType = "delayed" then some (.delayed (currentTime + timeValue) false)
  else none

/-- Spec-side description of the Delayed policy's outputs over a call
sequence: false before the first call whose time has reached the start
time, true at that call, false on every subsequent call regardless of its
time. -/
def delayedSpecOutputs (S : Int) : List Int → List Bool
  | [] => []
  | t :: ts =>
      if S ≤ t then true :: List.replicate ts.length false
      else false :: delayedSpecOutputs S ts

lemma runCalls_delayed_fired (S : Int) (ts : List Int) :
    runCalls (.delayed S true) ts = .ok (List.replicate ts.length false, .delayed S true) := by
  induction ts with
  | nil => rfl
  | cons t ts ih => simp [runCalls, SchedulingStrategy.shouldTrigger, ih, List.replicate_succ]

/-- C3: `toggle()` flips the state and notifies every attached listener on
every call, even consecutive calls; `setState(x)` sets the state to `x` and
notifies exactly when `x` differs from the current state, so a second
`setState` with the same value notifies nobody. -/
theorem toggle_always_notifies_setState_only_on_change (d : SmartDeviceState) (x : Bool) :
    (SmartDevice.toggle d).1.isOn = !d.isOn ∧
    (SmartDevice.toggle d).2 = d.observers ∧
    (SmartDevice.toggle (SmartDevice.toggle d).1).2 = d.observers ∧
    (SmartDevice.setState d x).1.isOn = x ∧
    ((SmartDevice.setState d x).2 = if x = d.isOn then [] else d.observers) ∧
    (SmartDevice.setState (SmartDevice.setState d x).1 x).2 = [] := by
  refine ⟨rfl, rfl, rfl, ?_, ?_, ?_⟩ <;> by_cases h : d.isOn = x
  · simp [SmartDevice.setState, h]
  · simp [SmartDevice.setState, SmartDevice.notify, h]
  · simp [SmartDevice.setState, h]
  · simp [SmartDevice.setState, SmartDevice.notify, h, Ne.symm h]
  · simp [SmartDevice.setState, h]
  · simp [SmartDevice.setState, SmartDevice.notify, h]

/-- C7: the Thermostat's sensor reaction replaces the held temperature
policy — Comfort when the value exceeds 28, Eco otherwise — and leaves the
underlying device (on/off state, name, observers) unchanged, emitting no
listener notification. -/
theorem thermostat_sensor_replaces_policy_only (t : ThermostatState) (v : Int) :
    (Thermostat.onSensorTriggered t v).1.strategy
        = some (if 28 < v then TemperatureStrategy.comfort else TemperatureStrategy.eco) ∧
    (Thermostat.onSensorTriggered t v).1.dev = t.dev ∧
    (Thermostat.onSensorTriggered t v).2 = [] := by
  by_cases h : 28 < v <;> simp [Thermostat.onSensorTriggered, h]

/-- C8: the Fan's sensor reaction sets the state to `value > 28` via
`setState`, so a notification pass happens exactly when the state actually
flips; in the spec's Scenario A, a Fan "F1" that is OFF with one attached
listener reacts to 30 by turning ON with one notification, and then reacts
to 10 by turning OFF with one further notification. -/
theorem fan_sensor_sets_state_via_setState :
    (∀ (d : SmartDeviceState) (v : Int),
      (Fan.onSensorTriggered d v).1.isOn = decide (28 < v) ∧
      (Fan.onSensorTriggered d v).1.name = d.name ∧
      (Fan.onSensorTriggered d v).1.observers = d.observers ∧
      (Fan.onSensorTriggered d v).2
          = (if d.isOn = decide (28 < v) then [] else d.observers)) ∧
    Fan.onSensorTriggered ⟨"F1", false, [0]⟩ 30 = (⟨"F1", true, [0]⟩, [0]) ∧
    Fan.onSensorTriggered (Fan.onSensorTriggered ⟨"F1", false, [0]⟩ 30).1 10
        = (⟨"F1", false, [0]⟩, [0]) := by
  refine ⟨fun d v => ?_, by decide, by decide⟩
  by_cases hv : 28 < v <;> by_cases hd : d.isOn <;>
    simp [Fan.onSensorTriggered, SmartDevice.setState, SmartDevice.notify, hv, hd]

/-- C4: a Periodic policy with a positive interval `k` triggers at a
non-negative time `t` exactly when `t mod k = 0` (including `t = 0`), its
policy object is unchanged by the call, and `isDone()` is always false. -/
theorem periodic_trigger_iff_mod_zero (k t : Int) (hk : 0 < k) (ht : 0 ≤ t) :
    SchedulingStrategy.shouldTrigger (.periodic k) t
        = .ok (decide (t % k = 0), .periodic k) ∧
    SchedulingStrategy.isDone (.periodic k) = false := by
  refine ⟨?_, rfl⟩
  simp [SchedulingStrategy.shouldTrigger, cppMod, hk.ne', Int.tmod_eq_emod ht hk.le]

/-- C4 witness: the periodic triggering theorem instantiated at interval 3
and time 6. -/
theorem periodic_trigger_iff_mod_zero_witness :
    SchedulingStrategy.shouldTrigger (.periodic 3) 6
        = .ok (decide ((6 : Int) % 3 = 0), .periodic 3) ∧
    SchedulingStrategy.isDone (.periodic 3) = false :=
  periodic_trigger_iff_mod_zero 3 6 (by decide) (by decide)

/-- C1 counterexample: `OneTimeSchedule` keeps no fired flag, so after a
first call at `t = T = 5` has returned true (leaving the policy object
unchanged), a second call at `t = 5` returns true again — the claimed
output `[true, false]` for the call sequence `[5, 5]` is wrong. -/
theorem onetime_second_call_at_trigger_time_still_true :
    runCalls (.oneTime 5) [5, 5] = .ok ([true, true], .oneTime 5) ∧
    runCalls (.oneTime 5) [5, 5] ≠ .ok ([true, false], .oneTime 5) := by
  have h : runCalls (.oneTime 5) [5, 5] = .ok ([true, true], .oneTime 5) := by
    simp [runCalls, SchedulingStrategy.shouldTrigger]
  refine ⟨h, ?_⟩
  rw [h]
  simp

/-- C1 (amended): `OneTimeSchedule::shouldTrigger(t)` returns `t == T` on
every call, including repeated calls at `t = T` after the first (the
policy is stateless); `isDone()` is always true, which is what lets the
scheduler mark the task completed after its first application. -/
theorem onetime_fires_whenever_time_matches (T : Int) (ts : List Int) :
    runCalls (.oneTime T) ts = .ok (ts.map fun t => decide (t = T), .oneTime T) ∧
    SchedulingStrategy.isDone (.oneTime T) = true := by
  refine ⟨?_, rfl⟩
  induction ts with
  | nil => rfl
  | cons t ts ih => simp [runCalls, SchedulingStrategy.shouldTrigger, ih]

/-- C5: over any call sequence, a Delayed policy with start time `S`
(initially untriggered) returns true on the first call whose time is at
least `S` and false on every other call — in particular false on every
call after the first true one, regardless of its time — and the final
policy's `isDone()` is true exactly when some call had time at least `S`,
i.e. exactly when the policy has already triggered. -/
theorem delayed_fires_once_at_first_ready_time (S : Int) (ts : List Int) :
    runCalls (.delayed S false) ts
        = .ok (delayedSpecOutputs S ts, .delayed S (ts.any fun t => decide (S ≤ t))) ∧
    SchedulingStrategy.isDone (.delayed S (ts.any fun t => decide (S ≤ t)))
        = ts.any fun t => decide (S ≤ t) := by
  refine ⟨?_, rfl⟩
  induction ts with
  | nil => rfl
  | cons t ts ih =>
      by_cases h : S ≤ t
      · simp [runCalls, SchedulingStrategy.shouldTrigger, h, delayedSpecOutputs,
              runCalls_delayed_fired]
      · simp [runCalls, SchedulingStrategy.shouldTrigger, h, delayedSpecOutputs, ih]

/-- C6: a Thermostat `toggle()` that ends in the ON state applies exactly
the currently held temperature policy (nothing when none is held), a
toggle that ends OFF applies nothing, and after a sensor trigger with
value 29 has installed the Comfort policy, a toggle from OFF into ON
applies Comfort's action — whatever policy (Eco or none) was held
before. -/
theorem thermostat_toggle_applies_current_policy (t : ThermostatState) (n : String)
    (obs : List Nat) :
    (Thermostat.toggle t).1.dev.isOn = !t.dev.isOn ∧
    ((Thermostat.toggle t).2.2 = if !t.dev.isOn then t.strategy.toList else []) ∧
    (Thermostat.toggle { t with strategy := none }).2.2 = [] ∧
    (Thermostat.toggle (Thermostat.onSensorTriggered ⟨⟨n, false, obs⟩, t.strategy⟩ 29).1).2.2
        = [TemperatureStrategy.comfort] := by
  refine ⟨rfl, ?_, rfl, ?_⟩
  · obtain ⟨dev, st⟩ := t
    cases st <;> simp [Thermostat.toggle, SmartDevice.toggle]
  · simp [Thermostat.onSensorTriggered, Thermostat.toggle, SmartDevice.toggle]

/-- C2: a scheduler holding the single task OneTime(5) turning the
existing device "F1" OFF applies exactly one `setState` to "F1" across two
`update(5)` calls: the first call applies it and marks the task completed,
and from the resulting state every later `update`, at any time, evaluates
nothing, applies nothing and changes nothing. -/
theorem scheduler_onetime_applies_exactly_once (b : Bool) (obs : List Nat) :
    Scheduler.update ⟨[⟨"F1", false, .oneTime 5, false⟩], [⟨"F1", b, obs⟩]⟩ 5
        = .ok (⟨[⟨"F1", false, .oneTime 5, true⟩], [⟨"F1", false, obs⟩]⟩, [("F1", false)]) ∧
    ∀ t : Int, Scheduler.update ⟨[⟨"F1", false, .oneTime 5, true⟩], [⟨"F1", false, obs⟩]⟩ t
        = .ok (⟨[⟨"F1", false, .oneTime 5, true⟩], [⟨"F1", false, obs⟩]⟩, []) := by
  constructor
  · cases b <;> rfl
  · intro t
    rfl

/-- C9: a task whose Delayed policy fires at a time past its start while
its device name resolves to nothing consumes the policy's `triggered`
flag without being marked completed, and from then on no `update` at any
time ever applies the task's state change: the policy never returns true
again. -/
theorem delayed_task_inert_after_unresolved_fire (n : String) (b : Bool) (S t : Int)
    (devices : List SmartDeviceState)
    (h1 : findDeviceByName devices n = none) (h2 : S ≤ t) :
    Scheduler.update ⟨[⟨n, b, .delayed S false, false⟩], devices⟩ t
        = .ok (⟨[⟨n, b, .delayed S true, false⟩], devices⟩, []) ∧
    ∀ t' : Int, Scheduler.update ⟨[⟨n, b, .delayed S true, false⟩], devices⟩ t'
        = .ok (⟨[⟨n, b, .delayed S true, false⟩], devices⟩, []) := by
  constructor
  · simp [Scheduler.update, updateTasks, stepTask, SchedulingStrategy.shouldTrigger, h1, h2]
  · intro t'
    simp [Scheduler.update, updateTasks, stepTask, SchedulingStrategy.shouldTrigger]

/-- C9 witness: the unresolved-Delayed theorem instantiated with an empty
device registry, start time 0, first update at time 0 and a later update
at time 99. -/
theorem delayed_task_inert_after_unresolved_fire_witness :
    Scheduler.update ⟨[⟨"X", true, .delayed 0 false, false⟩], []⟩ 0
        = .ok (⟨[⟨"X", true, .delayed 0 true, false⟩], []⟩, []) ∧
    Scheduler.update ⟨[⟨"X", true, .delayed 0 true, false⟩], []⟩ 99
        = .ok (⟨[⟨"X", true, .delayed 0 true, false⟩], []⟩, []) :=
  ⟨(delayed_task_inert_after_unresolved_fire "X" true 0 0 [] rfl (by decide)).1,
   (delayed_task_inert_after_unresolved_fire "X" true 0 0 [] rfl (by decide)).2 99⟩

/-- C10: `PeriodicSchedule::shouldTrigger` computes `currentTime %
interval` unguarded: for every non-zero interval the evaluation is
well-defined (never the error branch), while the CLI schedule command
builds `PeriodicSchedule` directly from the user-supplied time value with
no validation, so interval 0 is constructible and its evaluation hits the
division-by-zero error branch. -/
theorem periodic_unguarded_mod_and_cli_accepts_zero (k t c : Int) (hk : k ≠ 0) :
    (∃ b : Bool, SchedulingStrategy.shouldTrigger (.periodic k) t = .ok (b, .periodic k)) ∧
    mkScheduleStrategy "periodic" 0 c = some (.periodic 0) ∧
    SchedulingStrategy.shouldTrigger (.periodic 0) t = .error () := by
  refine ⟨⟨decide (t.tmod k = 0), ?_⟩, ?_, ?_⟩
  · simp [SchedulingStrategy.shouldTrigger, cppMod, hk]
  · rfl
  · simp [SchedulingStrategy.shouldTrigger, cppMod]

/-- C10 witness: the unguarded-mod theorem instantiated at interval 2,
time 7, CLI current time 0. -/
theorem periodic_unguarded_mod_and_cli_accepts_zero_witness :
    (∃ b : Bool, SchedulingStrategy.shouldTrigger (.periodic 2) 7 = .ok (b, .periodic 2)) ∧
    mkScheduleStrategy "periodic" 0 0 = some (.periodic 0) ∧
    SchedulingStrategy.shouldTrigger (.periodic 0) 7 = .error () :=
  periodic_unguarded_mod_and_cli_accepts_zero 2 7 0 (by decide)

end SmartHomeSim
